import Mathlib

/-!
Shallow embedding of the contacts-management backend
(`src/entity/models.py`, `src/repository/users.py`,
`src/repository/contacts.py`, `src/routes/auth.py`, `src/routes/contacts.py`)
and proofs about its authentication/token lifecycle and contact-ownership
invariants.

Conventions of the embedding:
* The relational store is a `Store` value holding the three tables as lists of
  rows; every handler is a pure function `... → Store → Result × Store`
  (SQLAlchemy `commit` becomes returning the updated store).
* `datetime` values are modelled as `Nat` tick counts; `date` values as a
  `PyDate` (year, month, day) record with exact Gregorian day arithmetic,
  mirroring Python `datetime.date` + `timedelta`.
* `HTTPException(status, detail)` becomes `Except.error (.http status detail)`;
  a Python `AttributeError` raised by attribute access on `None`
  becomes `Except.error .noneAttr`.
* `src/services/auth.py` and `src/conf/messages.py` are external to the
  sources in scope; password hashing/verification and signed-token
  decoding are therefore passed in as function parameters, and the message
  constants are modelled from the spec as distinct strings.
-/

namespace ContactsSpec

/-- Role enum from `src/entity/models.py` (`class Role`). -/
inductive Role where
  | admin
  | moderator
  | user
deriving DecidableEq, Repr

/-- Gregorian calendar date, modelling Python `datetime.date`.
(`birthday` column of `contacts`). -/
structure PyDate where
  year : Nat
  month : Nat
  day : Nat
deriving DecidableEq, Repr

/-- Leap-year rule of the Gregorian calendar (Python `calendar.isleap`). -/
def isLeap (y : Nat) : Bool :=
  (y % 4 == 0 && y % 100 != 0) || y % 400 == 0

/-- Number of days in a month of a given year. -/
def daysInMonth (y m : Nat) : Nat :=
  if m == 2 then (if isLeap y then 29 else 28)
  else if m == 4 || m == 6 || m == 9 || m == 11 then 30
  else 31

/-- Successor day in the Gregorian calendar. -/
def nextDay (d : PyDate) : PyDate :=
  if d.day < daysInMonth d.year d.month then ⟨d.year, d.month, d.day + 1⟩
  else if d.month < 12 then ⟨d.year, d.month + 1, 1⟩
  else ⟨d.year + 1, 1, 1⟩

/-- `d + timedelta(days := n)` for Python dates. -/
def addDays (d : PyDate) (n : Nat) : PyDate :=
  Nat.repeat nextDay n d

/-- `User` row from `src/entity/models.py` (audit timestamp columns
`created_at`/`updated_at` are omitted: no operation in scope reads them). -/
structure User where
  id : Nat
  username : String
  email : String
  password : String
  avatar : Option String
  refresh_token : Option String
  role : Role
  confirmed : Bool
deriving DecidableEq, Repr

/-- `Contact` row from `src/entity/models.py` (audit timestamps omitted;
the `user` relationship is represented by the `user_id` foreign key). -/
structure Contact where
  id : Nat
  first_name : String
  last_name : String
  email : String
  phone_number : String
  birthday : PyDate
  user_id : Nat
deriving DecidableEq, Repr

/-- `PasswordResetToken` row from `src/entity/models.py`;
`expiration` is a `DateTime`, modelled as a `Nat` tick count. -/
structure PasswordResetToken where
  id : Nat
  email : String
  token : String
  expiration : Nat
deriving DecidableEq, Repr

/-- The relational store: the three tables. Schema-level invariants
(unique `users.email`, unique primary keys, unique
`password_reset_tokens.token`) appear as hypotheses where proofs need
them. -/
structure Store where
  users : List User
  resetTokens : List PasswordResetToken
  contacts : List Contact
deriving DecidableEq, Repr

/-- Signup payload (`UserSchema`): `create_user` builds a `User` from
exactly these fields (`User(**body.model_dump(), avatar=avatar)`).
Modelled from the spec: `src/schemas/user.py` is not among the sources in
scope; the signup payload of the spec is email, username, password. -/
structure UserSchema where
  username : String
  email : String
  password : String
deriving DecidableEq, Repr

/-- `ContactSchema` / `ContactUpdateSchema` from `src/schemas/contact.py`:
first/last name, email, phone number, birthday. -/
structure ContactSchema where
  first_name : String
  last_name : String
  email : String
  phone_number : String
  birthday : PyDate
deriving DecidableEq, Repr

/-- Token-pair response `{access_token, refresh_token, token_type}`
returned by `login` and `refresh_token`. -/
structure TokenPair where
  access_token : String
  refresh_token : String
  token_type : String
deriving DecidableEq, Repr

/-- Failure of a handler: `http s d` is `HTTPException(status_code = s,
detail = d)`; `noneAttr` is the `AttributeError` Python raises when an
attribute is read on `None`. -/
inductive HErr where
  | http (statusCode : Nat) (detail : String)
  | noneAttr
deriving DecidableEq, Repr

/-! Message constants. Modelled from the spec: `src/conf/messages.py` is
not among the sources in scope; the spec requires the user-facing
messages to be distinct, and the e2e tests show `EMAIL_NOT_FOUND` is
"Email not found". -/

/-- Modelled from the spec: `messages.ACCOUNT_EXIST`. -/
def ACCOUNT_EXIST : String := "Account already exists"

/-- Modelled from the spec: `messages.INVALID_EMAIL`. -/
def INVALID_EMAIL : String := "Invalid email"

/-- Modelled from the spec: `messages.EMAIL_NOT_CONFIRMED`. -/
def EMAIL_NOT_CONFIRMED : String := "Email not confirmed"

/-- Modelled from the spec: `messages.INVALID_PASSWORD`. -/
def INVALID_PASSWORD : String := "Invalid password"

/-- Modelled from the spec: `messages.INVALID_REFRESH_TOKEN`. -/
def INVALID_REFRESH_TOKEN : String := "Invalid refresh token"

/-- Modelled from the spec: the detail of the `Unauthorized` failure
raised inside `auth_service.decode_refresh_token` for an invalid /
expired / wrong-type signed token (spec section 4.2, `InvalidToken`). -/
def INVALID_TOKEN : String := "Could not validate credentials"

/-- Modelled from the spec: `messages.VERIFICATION_ERROR`. -/
def VERIFICATION_ERROR : String := "Verification error"

/-- Modelled from the spec: `messages.EMAIL_NOT_FOUND` (the e2e test
asserts the literal "Email not found"). -/
def EMAIL_NOT_FOUND : String := "Email not found"

/-- Modelled from the spec: `messages.USER_NOT_FOUND`. -/
def USER_NOT_FOUND : String := "User not found"

/-- Modelled from the spec: `messages.INVALID_OR_EXPIRED_TOKEN`. -/
def INVALID_OR_EXPIRED_TOKEN : String := "Invalid or expired token"

namespace Repo

/-- Embeds `src/repository/users.py::get_user_by_email`:
`select(User).filter_by(email=email)` + `scalar_one_or_none()`.
With the unique-email schema constraint at most one row matches, so
first-match `find?` is the semantics of the query. -/
def get_user_by_email (st : Store) (email : String) : Option User :=
  st.users.find? (fun u => u.email == email)

/-- Embeds `src/repository/users.py::create_user`: insert
`User(**body.model_dump(), avatar=avatar)`; column defaults apply
(`refresh_token` null, `confirmed` false, `role` user). The generated
primary key and the Gravatar result are inputs. -/
def create_user (newId : Nat) (avatar : Option String) (body : UserSchema)
    (st : Store) : User × Store :=
  let nu : User :=
    { id := newId, username := body.username, email := body.email,
      password := body.password, avatar := avatar, refresh_token := none,
      role := Role.user, confirmed := false }
  (nu, { st with users := st.users ++ [nu] })

/-- Embeds `src/repository/users.py::update_token`: `user.refresh_token = token;
commit()` — in-row mutation of the user found earlier, identified by its
primary key. -/
def update_token (user : User) (token : Option String) (st : Store) : Store :=
  { st with
    users := st.users.map (fun v =>
      if v.id == user.id then { v with refresh_token := token } else v) }

/-- Embeds `src/repository/users.py::confirmed_email`: re-fetch the user by
email and set `confirmed = True`. On a missing user the Python code
would raise `AttributeError` (`user.confirmed` on `None`), hence
`Option`. -/
def confirmed_email (email : String) (st : Store) : Option Store :=
  match get_user_by_email st email with
  | none => none
  | some u =>
    some { st with
           users := st.users.map (fun v =>
             if v.id == u.id then { v with confirmed := true } else v) }

/-- Embeds `src/repository/contacts.py::get_contacts`:
`select(Contact).filter_by(user=user).offset(offset).limit(limit)`. -/
def get_contacts (offset limit : Nat) (st : Store) (user : User) :
    List Contact :=
  (((st.contacts.filter (fun c => c.user_id == user.id)).drop offset).take limit)

/-- Embeds `src/repository/contacts.py::get_contact_id`:
`select(Contact).filter_by(id=contact_id, user=user)` +
`scalar_one_or_none()`. -/
def get_contact_id (contact_id : Nat) (st : Store) (user : User) :
    Option Contact :=
  st.contacts.find? (fun c => c.id == contact_id && c.user_id == user.id)

/-- Embeds `src/repository/contacts.py::get_contact_first_name`:
case-insensitive match on `first_name`, scoped by `user_id`. -/
def get_contact_first_name (contact_first_name : String) (st : Store)
    (user : User) : List Contact :=
  st.contacts.filter (fun c =>
    c.first_name.toLower == contact_first_name.toLower && c.user_id == user.id)

/-- Embeds `src/repository/contacts.py::get_contact_last_name`:
case-insensitive match on `last_name`, scoped by `user_id`. -/
def get_contact_last_name (contact_last_name : String) (st : Store)
    (user : User) : List Contact :=
  st.contacts.filter (fun c =>
    c.last_name.toLower == contact_last_name.toLower && c.user_id == user.id)

/-- Embeds `src/repository/contacts.py::get_contact_email`: case-insensitive
match on `email`, scoped by `user_id`; raises 404 when no row matches. -/
def get_contact_email (contact_email : String) (st : Store) (user : User) :
    Except HErr Contact :=
  match st.contacts.find? (fun c =>
      c.email.toLower == contact_email.toLower && c.user_id == user.id) with
  | none => .error (.http 404 "Contact not found")
  | some c => .ok c

/-- The birthday-window predicate of
`src/repository/contacts.py::get_contact_birthday`: with
`seven_days_later = today + 7 days`, a contact matches when
(month = the month of today AND day ≥ the day of today) OR
(month = the month of seven_days_later AND day ≤ the day of seven_days_later). -/
def birthdayMatch (today : PyDate) (birthday : PyDate) : Bool :=
  let seven_days_later := addDays today 7
  (birthday.month == today.month && birthday.day ≥ today.day) ||
  (birthday.month == seven_days_later.month &&
   birthday.day ≤ seven_days_later.day)

/-- Embeds `src/repository/contacts.py::get_contact_birthday`: all contacts of
`user` whose birthday satisfies `birthdayMatch` for the current date
(`datetime.utcnow().date()`, passed in as `today`). -/
def get_contact_birthday (today : PyDate) (st : Store) (user : User) :
    List Contact :=
  st.contacts.filter (fun c =>
    c.user_id == user.id && birthdayMatch today c.birthday)

/-- Embeds `src/repository/contacts.py::create_contact`: insert
`Contact(**body.model_dump(), user=user)`; the generated primary key is
an input. -/
def create_contact (newId : Nat) (body : ContactSchema) (st : Store)
    (user : User) : Contact × Store :=
  let c : Contact :=
    { id := newId, first_name := body.first_name, last_name := body.last_name,
      email := body.email, phone_number := body.phone_number,
      birthday := body.birthday, user_id := user.id }
  (c, { st with contacts := st.contacts ++ [c] })

/-- Embeds `src/repository/contacts.py::update_contact`: find by
`(id, user)`; when found overwrite the five payload fields and commit. -/
def update_contact (contact_id : Nat) (body : ContactSchema) (st : Store)
    (user : User) : Option Contact × Store :=
  match st.contacts.find? (fun c =>
      c.id == contact_id && c.user_id == user.id) with
  | none => (none, st)
  | some c =>
    let c' : Contact :=
      { c with first_name := body.first_name, last_name := body.last_name,
               email := body.email, phone_number := body.phone_number,
               birthday := body.birthday }
    (some c',
     { st with contacts := st.contacts.map (fun d =>
         if d.id == contact_id && d.user_id == user.id then
           { d with first_name := body.first_name,
                    last_name := body.last_name, email := body.email,
                    phone_number := body.phone_number,
                    birthday := body.birthday }
         else d) })

/-- Embeds `src/repository/contacts.py::remove_contact`: find by `(id, user)`;
when found `db.delete(contact)` removes that row (by primary key). -/
def remove_contact (contact_id : Nat) (st : Store) (user : User) :
    Option Contact × Store :=
  match st.contacts.find? (fun c =>
      c.id == contact_id && c.user_id == user.id) with
  | none => (none, st)
  | some c =>
    (some c, { st with contacts := st.contacts.filter (fun d => d.id != c.id) })

end Repo

namespace Routes

/-- Embeds `src/routes/auth.py::signup`: 409 `Conflict` when the email already
exists; otherwise hash the password (`body.password =
auth_service.get_password_hash(body.password)`) and create the user.
`hashF` stands for the external `auth_service.get_password_hash`; the
confirmation email is a fire-and-forget background task with no effect
on the store. -/
def signup (hashF : String → String) (newId : Nat) (avatar : Option String)
    (st : Store) (body : UserSchema) : Except HErr User × Store :=
  match Repo.get_user_by_email st body.email with
  | some _ => (.error (.http 409 ACCOUNT_EXIST), st)
  | none =>
    let hashed := { body with password := hashF body.password }
    let (nu, st') := Repo.create_user newId avatar hashed st
    (.ok nu, st')

/-- Embeds `src/routes/auth.py::login`: 401 `INVALID_EMAIL` when the email is
unknown, then 401 `EMAIL_NOT_CONFIRMED` when `confirmed` is false, then
401 `INVALID_PASSWORD` when verification fails; otherwise store the new
refresh token and return the pair. `verify` stands for the external
`auth_service.verify_password`; `na`/`nr` are the freshly created
access/refresh tokens. -/
def login (verify : String → String → Bool) (na nr : String) (st : Store)
    (email password : String) : Except HErr TokenPair × Store :=
  match Repo.get_user_by_email st email with
  | none => (.error (.http 401 INVALID_EMAIL), st)
  | some user =>
    if !user.confirmed then (.error (.http 401 EMAIL_NOT_CONFIRMED), st)
    else if !verify password user.password then
      (.error (.http 401 INVALID_PASSWORD), st)
    else
      (.ok { access_token := na, refresh_token := nr, token_type := "bearer" },
       Repo.update_token user (some nr) st)

/-- Embeds `src/routes/auth.py::refresh_token`: decode the presented bearer
token to a subject email, fetch the user, and compare the stored
`refresh_token`; a mismatch clears the stored token and fails 401;
otherwise rotate (store `nr`) and return the new pair. `dec` stands for
the external `auth_service.decode_refresh_token` at the time of the
call, modelled from the spec: it yields the subject email of a valid
refresh token and fails (`none` → 401) on an invalid / expired /
wrong-type token. A `none` user would hit `user.refresh_token` in
Python and raise `AttributeError`. -/
def refresh_token (dec : String → Option String) (na nr : String)
    (st : Store) (token : String) : Except HErr TokenPair × Store :=
  match dec token with
  | none => (.error (.http 401 INVALID_TOKEN), st)
  | some email =>
    match Repo.get_user_by_email st email with
    | none => (.error .noneAttr, st)
    | some user =>
      if user.refresh_token != some token then
        (.error (.http 401 INVALID_REFRESH_TOKEN), Repo.update_token user none st)
      else
        (.ok { access_token := na, refresh_token := nr, token_type := "bearer" },
         Repo.update_token user (some nr) st)

/-- Embeds `src/routes/auth.py::confirmed_email`: decode the token to an email
(`dec` stands for the external `auth_service.get_email_from_token`,
failing with 400 on a bad token); 400 `VERIFICATION_ERROR` when the user
is unknown; success no-op with a distinct message when already
confirmed; otherwise flip the flag via the repository. -/
def confirmed_email (dec : String → Option String) (st : Store)
    (token : String) : Except HErr String × Store :=
  match dec token with
  | none => (.error (.http 400 VERIFICATION_ERROR), st)
  | some email =>
    match Repo.get_user_by_email st email with
    | none => (.error (.http 400 VERIFICATION_ERROR), st)
    | some user =>
      if user.confirmed then (.ok "Your email is already confirmed", st)
      else
        match Repo.confirmed_email email st with
        | none => (.error .noneAttr, st)
        | some st' => (.ok "Email confirmed", st')

/-- Embeds `src/routes/auth.py::request_email`: fetch the user by email and
read `user.confirmed` FIRST — on an unknown email this is `None.confirmed`
and raises `AttributeError` (the `if user:` guard comes only after);
otherwise an already-confirmed user gets the no-op message and an
unconfirmed one gets the check-your-email message (the resend itself is
background work with no store effect). -/
def request_email (st : Store) (email : String) : Except HErr String × Store :=
  match Repo.get_user_by_email st email with
  | none => (.error .noneAttr, st)
  | some user =>
    if user.confirmed then (.ok "Your email is already confirmed", st)
    else (.ok "Check your email for confirmation.", st)

/-- Embeds `src/routes/auth.py::password_reset_request`: 404 `EMAIL_NOT_FOUND`
when the email is unknown; otherwise store a new reset-token row with
`expiration = now + 1 hour` (the opaque token value, the generated row
id and the tick value of one hour are inputs) and send the email as
background work. -/
def password_reset_request (newId : Nat) (token : String) (now oneHour : Nat)
    (st : Store) (email : String) : Except HErr String × Store :=
  match Repo.get_user_by_email st email with
  | none => (.error (.http 404 EMAIL_NOT_FOUND), st)
  | some _ =>
    let row : PasswordResetToken :=
      { id := newId, email := email, token := token,
        expiration := now + oneHour }
    (.ok "Password reset link has been sent to your email.",
     { st with resetTokens := st.resetTokens ++ [row] })

/-- Embeds `src/routes/auth.py::reset_password`: look the token row up
(`scalar()` = first match); 400 `INVALID_OR_EXPIRED_TOKEN` when absent
or `expiration < now`; 404 `USER_NOT_FOUND` when no user has the email stored
in the row; otherwise set `user.password` to the hash of the new password,
commit, and delete the token row. `hashF` stands for the external
`auth_service.get_password_hash`. -/
def reset_password (hashF : String → String) (now : Nat) (st : Store)
    (token new_password : String) : Except HErr String × Store :=
  match st.resetTokens.find? (fun r => r.token == token) with
  | none => (.error (.http 400 INVALID_OR_EXPIRED_TOKEN), st)
  | some db_token =>
    if db_token.expiration < now then
      (.error (.http 400 INVALID_OR_EXPIRED_TOKEN), st)
    else
      match Repo.get_user_by_email st db_token.email with
      | none => (.error (.http 404 USER_NOT_FOUND), st)
      | some user =>
        let st1 : Store :=
          { st with users := st.users.map (fun v =>
              if v.id == user.id then { v with password := hashF new_password }
              else v) }
        let st2 : Store :=
          { st1 with resetTokens :=
              st1.resetTokens.filter (fun r => r.id != db_token.id) }
        (.ok "Password has been reset successfully.", st2)

end Routes

/-- Decidable equality for handler results. -/
instance {ε α : Type} [DecidableEq ε] [DecidableEq α] : DecidableEq (Except ε α)
  | .error e₁, .error e₂ =>
    match decEq e₁ e₂ with
    | isTrue h => isTrue (by rw [h])
    | isFalse h => isFalse (fun c => h (by injection c))
  | .error _, .ok _ => isFalse (fun c => Except.noConfusion c)
  | .ok _, .error _ => isFalse (fun c => Except.noConfusion c)
  | .ok a₁, .ok a₂ =>
    match decEq a₁ a₂ with
    | isTrue h => isTrue (by rw [h])
    | isFalse h => isFalse (fun c => h (by injection c))

/-! Concrete stores, users and token rows used to instantiate the theorems
below on executable inputs. -/

/-- A concrete password hash function standing for the external
`auth_service.get_password_hash` in concrete instantiations. -/
def cHash : String → String := fun p => "h#" ++ p

/-- Empty store. -/
def emptyStore : Store := { users := [], resetTokens := [], contacts := [] }

/-- Concrete decoder accepting exactly the refresh token "t1" of c1u. -/
def c1dec : String → Option String :=
  fun s => if s == "t1" then some "a@x.com" else none

/-- Concrete confirmed user whose stored refresh token is "t1". -/
def c1u : User :=
  { id := 1, username := "u", email := "a@x.com", password := "h#pw",
    avatar := none, refresh_token := some "t1", role := Role.user,
    confirmed := true }

/-- Store holding just `c1u`. -/
def c1st : Store := { users := [c1u], resetTokens := [], contacts := [] }

/-- Concrete password-reset token row expiring at tick 100. -/
def c2row : PasswordResetToken :=
  { id := 1, email := "a@x.com", token := "tk", expiration := 100 }

/-- Concrete confirmed user with no stored refresh token. -/
def c2user : User :=
  { id := 1, username := "u", email := "a@x.com", password := "h#pw",
    avatar := none, refresh_token := none, role := Role.user,
    confirmed := true }

/-- Store holding `c2user` and the reset-token row `c2row`. -/
def c2st : Store := { users := [c2user], resetTokens := [c2row], contacts := [] }

/-- Contact of user 1 whose birthday month/day is June 4
(= month/day of June 1 + 3 days). -/
def c5c3 : Contact :=
  { id := 1, first_name := "Alice", last_name := "Smith",
    email := "a1@x.com", phone_number := "111", birthday := ⟨1990, 6, 4⟩,
    user_id := 1 }

/-- Contact of user 1 whose birthday month/day is June 11
(= month/day of June 1 + 10 days). -/
def c5c10 : Contact :=
  { id := 2, first_name := "Bob", last_name := "Brown",
    email := "a2@x.com", phone_number := "222", birthday := ⟨1990, 6, 11⟩,
    user_id := 1 }

/-- Store holding the two birthday contacts, owned by `c2user`. -/
def c5st : Store :=
  { users := [c2user], resetTokens := [], contacts := [c5c3, c5c10] }

/-- Concrete confirmed user "a@x.com". -/
def c6a : User :=
  { id := 1, username := "a", email := "a@x.com", password := "h#pw",
    avatar := none, refresh_token := none, role := Role.user,
    confirmed := true }

/-- Concrete unconfirmed user "b@x.com". -/
def c6b : User :=
  { id := 2, username := "b", email := "b@x.com", password := "h#pw",
    avatar := none, refresh_token := none, role := Role.user,
    confirmed := false }

/-- Store holding a confirmed and an unconfirmed user. -/
def c6st : Store := { users := [c6a, c6b], resetTokens := [], contacts := [] }

/-- Concrete signup payload. -/
def c7body : UserSchema :=
  { username := "u", email := "a@x.com", password := "pw" }

/-- Contact owned by user 1. -/
def c8c1 : Contact :=
  { id := 1, first_name := "Mine", last_name := "Own",
    email := "m@x.com", phone_number := "111", birthday := ⟨1990, 1, 1⟩,
    user_id := 1 }

/-- Contact owned by user 2. -/
def c8c2 : Contact :=
  { id := 2, first_name := "Other", last_name := "Person",
    email := "o@x.com", phone_number := "222", birthday := ⟨1990, 2, 2⟩,
    user_id := 2 }

/-- Store holding contacts of two different owners. -/
def c8st : Store :=
  { users := [c6a, c6b], resetTokens := [], contacts := [c8c1, c8c2] }

/-- Concrete contact payload. -/
def c8body : ContactSchema :=
  { first_name := "New", last_name := "Name", email := "n@x.com",
    phone_number := "333", birthday := ⟨1991, 3, 3⟩ }

/-- Concrete decoder accepting exactly the confirmation token "ct". -/
def c9dec : String → Option String :=
  fun s => if s == "ct" then some "a@x.com" else none

/-- Concrete confirmed user whose stored refresh token is "rt". -/
def c10u : User :=
  { id := 1, username := "u", email := "a@x.com", password := "h#old",
    avatar := some "av", refresh_token := some "rt", role := Role.user,
    confirmed := true }

/-- Store holding `c10u` and the reset-token row `c2row`. -/
def c10st : Store := { users := [c10u], resetTokens := [c2row], contacts := [] }

/-- Concrete decoder accepting exactly the refresh token "rt" of c10u. -/
def c10dec : String → Option String :=
  fun s => if s == "rt" then some "a@x.com" else none

/-- Helper: a user-table lookup by email commutes with a row-wise map that
preserves the email column. -/
theorem users_find?_email_map (f : User → User)
    (hf : ∀ v, (f v).email = v.email) (l : List User) (e : String) :
    (l.map f).find? (fun u => u.email == e) =
      (l.find? (fun u => u.email == e)).map f := by
  rw [List.find?_map]
  have hp : ((fun u : User => u.email == e) ∘ f) = (fun u : User => u.email == e) := by
    funext v
    simp [Function.comp, hf]
  rw [hp]

/-- Helper: looking a user up by email after `update_token` finds the same
row, with its `refresh_token` column rewritten when the row is the updated
one. -/
theorem get_user_by_email_update_token (w : User) (t : Option String)
    (st : Store) (e : String) :
    Repo.get_user_by_email (Repo.update_token w t st) e =
      (Repo.get_user_by_email st e).map
        (fun u => if u.id == w.id then { u with refresh_token := t } else u) := by
  unfold Repo.get_user_by_email Repo.update_token
  exact users_find?_email_map _ (fun v => by by_cases h : v.id == w.id <;> simp [h]) _ _

/-- C1: refresh-token rotation revokes the old token. If a refresh call
presenting `t` succeeds and stores the fresh token `nr ≠ t`, then a
subsequent refresh call presenting `t` (still decodable to the same
subject) fails 401 `INVALID_REFRESH_TOKEN` and clears the stored refresh
token to null, and a further refresh call presenting `t` keeps failing
401: the old token is never again accepted after rotation. -/
theorem C1_refresh_rotation_revokes_old
    (dec dec2 dec3 : String → Option String) (na nr na2 nr2 na3 nr3 : String)
    (st : Store) (u : User) (e t : String)
    (hfind : Repo.get_user_by_email st e = some u)
    (hdec : dec t = some e) (hdec2 : dec2 t = some e) (hdec3 : dec3 t = some e)
    (hcur : u.refresh_token = some t)
    (hfresh : nr ≠ t) :
    (Routes.refresh_token dec na nr st t).fst =
      .ok { access_token := na, refresh_token := nr, token_type := "bearer" } ∧
    (Routes.refresh_token dec2 na2 nr2 (Routes.refresh_token dec na nr st t).snd t).fst =
      .error (.http 401 INVALID_REFRESH_TOKEN) ∧
    Repo.get_user_by_email
        (Routes.refresh_token dec2 na2 nr2 (Routes.refresh_token dec na nr st t).snd t).snd e =
      some { u with refresh_token := none } ∧
    (Routes.refresh_token dec3 na3 nr3
        (Routes.refresh_token dec2 na2 nr2 (Routes.refresh_token dec na nr st t).snd t).snd t).fst =
      .error (.http 401 INVALID_REFRESH_TOKEN) := by
  have h1 : Routes.refresh_token dec na nr st t =
      (.ok { access_token := na, refresh_token := nr, token_type := "bearer" },
       Repo.update_token u (some nr) st) := by
    simp [Routes.refresh_token, hdec, hfind, hcur]
  have hfind1 : Repo.get_user_by_email (Repo.update_token u (some nr) st) e =
      some { u with refresh_token := some nr } := by
    rw [get_user_by_email_update_token, hfind]
    simp
  have hmm : (({ u with refresh_token := some nr } : User).refresh_token
      != some t) = true := by
    simp [hfresh]
  have h2 : Routes.refresh_token dec2 na2 nr2 (Repo.update_token u (some nr) st) t =
      (.error (.http 401 INVALID_REFRESH_TOKEN),
       Repo.update_token { u with refresh_token := some nr } none
         (Repo.update_token u (some nr) st)) := by
    simp [Routes.refresh_token, hdec2, hfind1, hmm]
  have hfind2 : Repo.get_user_by_email
      (Repo.update_token { u with refresh_token := some nr } none
        (Repo.update_token u (some nr) st)) e =
      some { u with refresh_token := none } := by
    rw [get_user_by_email_update_token, hfind1]
    simp
  have h3 : Routes.refresh_token dec3 na3 nr3
      (Repo.update_token { u with refresh_token := some nr } none
        (Repo.update_token u (some nr) st)) t =
      (.error (.http 401 INVALID_REFRESH_TOKEN),
       Repo.update_token { u with refresh_token := none } none
         (Repo.update_token { u with refresh_token := some nr } none
           (Repo.update_token u (some nr) st))) := by
    simp [Routes.refresh_token, hdec3, hfind2]
  refine ⟨by rw [h1], ?_, ?_, ?_⟩
  · rw [h1]
    simp only
    rw [h2]
  · rw [h1]
    simp only
    rw [h2]
    simp only
    exact hfind2
  · rw [h1]
    simp only
    rw [h2]
    simp only
    rw [h3]

/-- Witness for C1: the rotation/revocation theorem applied to the
one-user store `c1st` with stored refresh token "t1". -/
theorem C1_refresh_rotation_revokes_old_witness :
    (Routes.refresh_token c1dec "na" "nr" c1st "t1").fst =
      .ok { access_token := "na", refresh_token := "nr", token_type := "bearer" } ∧
    (Routes.refresh_token c1dec "na2" "nr2"
        (Routes.refresh_token c1dec "na" "nr" c1st "t1").snd "t1").fst =
      .error (.http 401 INVALID_REFRESH_TOKEN) ∧
    Repo.get_user_by_email
        (Routes.refresh_token c1dec "na2" "nr2"
          (Routes.refresh_token c1dec "na" "nr" c1st "t1").snd "t1").snd "a@x.com" =
      some { c1u with refresh_token := none } ∧
    (Routes.refresh_token c1dec "na3" "nr3"
        (Routes.refresh_token c1dec "na2" "nr2"
          (Routes.refresh_token c1dec "na" "nr" c1st "t1").snd "t1").snd "t1").fst =
      .error (.http 401 INVALID_REFRESH_TOKEN) :=
  C1_refresh_rotation_revokes_old c1dec c1dec c1dec "na" "nr" "na2" "nr2" "na3" "nr3"
    c1st c1u "a@x.com" "t1" rfl rfl rfl rfl rfl (by decide)

/-- C3: login fails with status 401 exactly when the email is unknown,
the account is unconfirmed, or the password does not verify, with three
distinct messages; the unconfirmed message is returned whenever
`confirmed = false` regardless of the password; otherwise login succeeds
with an access+refresh token pair. -/
theorem C3_login_unauthorized_cases
    (verify : String → String → Bool) (na nr : String) (st : Store)
    (email pw : String) :
    (Repo.get_user_by_email st email = none →
      (Routes.login verify na nr st email pw).fst =
        .error (.http 401 INVALID_EMAIL)) ∧
    (∀ u, Repo.get_user_by_email st email = some u → u.confirmed = false →
      (Routes.login verify na nr st email pw).fst =
        .error (.http 401 EMAIL_NOT_CONFIRMED)) ∧
    (∀ u, Repo.get_user_by_email st email = some u → u.confirmed = true →
      verify pw u.password = false →
      (Routes.login verify na nr st email pw).fst =
        .error (.http 401 INVALID_PASSWORD)) ∧
    (∀ u, Repo.get_user_by_email st email = some u → u.confirmed = true →
      verify pw u.password = true →
      (Routes.login verify na nr st email pw).fst =
        .ok { access_token := na, refresh_token := nr, token_type := "bearer" }) ∧
    ((∃ d, (Routes.login verify na nr st email pw).fst = .error (.http 401 d)) ↔
      (Repo.get_user_by_email st email = none ∨
       ∃ u, Repo.get_user_by_email st email = some u ∧
         (u.confirmed = false ∨ verify pw u.password = false))) ∧
    (INVALID_EMAIL ≠ EMAIL_NOT_CONFIRMED ∧ INVALID_EMAIL ≠ INVALID_PASSWORD ∧
     EMAIL_NOT_CONFIRMED ≠ INVALID_PASSWORD) := by
  refine ⟨?_, ?_, ?_, ?_, ?_, by decide, by decide, by decide⟩
  · intro hu
    simp [Routes.login, hu]
  · intro u hu hc
    simp [Routes.login, hu, hc]
  · intro u hu hc hv
    simp [Routes.login, hu, hc, hv]
  · intro u hu hc hv
    simp [Routes.login, hu, hc, hv]
  · constructor
    · rintro ⟨d, hd⟩
      cases hu : Repo.get_user_by_email st email with
      | none => exact Or.inl rfl
      | some u =>
        refine Or.inr ⟨u, rfl, ?_⟩
        cases hc : u.confirmed with
        | false => exact Or.inl rfl
        | true =>
          cases hv : verify pw u.password with
          | false => exact Or.inr rfl
          | true => simp [Routes.login, hu, hc, hv] at hd
    · intro h
      rcases h with hu | ⟨u, hu, hrest⟩
      · exact ⟨INVALID_EMAIL, by simp [Routes.login, hu]⟩
      · rcases hrest with hc | hv
        · exact ⟨EMAIL_NOT_CONFIRMED, by simp [Routes.login, hu, hc]⟩
        · cases hc : u.confirmed with
          | false => exact ⟨EMAIL_NOT_CONFIRMED, by simp [Routes.login, hu, hc]⟩
          | true => exact ⟨INVALID_PASSWORD, by simp [Routes.login, hu, hc, hv]⟩

/-- Witness for C3: all four login outcomes on concrete stores —
unknown email, unconfirmed account, wrong password, and success. -/
theorem C3_login_unauthorized_cases_witness :
    (Routes.login (fun _ _ => true) "na" "nr" emptyStore "x@y.z" "pw").fst =
      .error (.http 401 INVALID_EMAIL) ∧
    (Routes.login (fun _ _ => true) "na" "nr" c6st "b@x.com" "pw").fst =
      .error (.http 401 EMAIL_NOT_CONFIRMED) ∧
    (Routes.login (fun _ _ => false) "na" "nr" c6st "a@x.com" "pw").fst =
      .error (.http 401 INVALID_PASSWORD) ∧
    (Routes.login (fun _ _ => true) "na" "nr" c6st "a@x.com" "pw").fst =
      .ok { access_token := "na", refresh_token := "nr", token_type := "bearer" } :=
  ⟨(C3_login_unauthorized_cases (fun _ _ => true) "na" "nr" emptyStore "x@y.z" "pw").1 rfl,
   (C3_login_unauthorized_cases (fun _ _ => true) "na" "nr" c6st "b@x.com" "pw").2.1 c6b rfl rfl,
   (C3_login_unauthorized_cases (fun _ _ => false) "na" "nr" c6st "a@x.com" "pw").2.2.1 c6a rfl rfl rfl,
   (C3_login_unauthorized_cases (fun _ _ => true) "na" "nr" c6st "a@x.com" "pw").2.2.2.1 c6a rfl rfl rfl⟩

/-- C4: password-reset completion fails 400 `INVALID_OR_EXPIRED_TOKEN`
when the token row is absent or expired, fails 404 `USER_NOT_FOUND` when
no user has the stored email, and otherwise sets that user password to
the hash of the new password and deletes the token row, so that a second
completion presenting the same token fails 400 (single use enforced by
deletion). `hkey` is the unique-index constraint on the token column. -/
theorem C4_reset_password_single_use
    (hashF : String → String) (now : Nat) (st : Store) (tok npw : String)
    (hkey : ∀ r₁ ∈ st.resetTokens, ∀ r₂ ∈ st.resetTokens,
      r₁.token = r₂.token → r₁.id = r₂.id) :
    (st.resetTokens.find? (fun r => r.token == tok) = none →
      Routes.reset_password hashF now st tok npw =
        (.error (.http 400 INVALID_OR_EXPIRED_TOKEN), st)) ∧
    (∀ dt, st.resetTokens.find? (fun r => r.token == tok) = some dt →
      dt.expiration < now →
      Routes.reset_password hashF now st tok npw =
        (.error (.http 400 INVALID_OR_EXPIRED_TOKEN), st)) ∧
    (∀ dt, st.resetTokens.find? (fun r => r.token == tok) = some dt →
      ¬ dt.expiration < now → Repo.get_user_by_email st dt.email = none →
      Routes.reset_password hashF now st tok npw =
        (.error (.http 404 USER_NOT_FOUND), st)) ∧
    (∀ dt u, st.resetTokens.find? (fun r => r.token == tok) = some dt →
      ¬ dt.expiration < now → Repo.get_user_by_email st dt.email = some u →
      (Routes.reset_password hashF now st tok npw).fst =
        .ok "Password has been reset successfully." ∧
      Repo.get_user_by_email (Routes.reset_password hashF now st tok npw).snd
          dt.email = some { u with password := hashF npw } ∧
      (Routes.reset_password hashF now st tok npw).snd.resetTokens.find?
          (fun r => r.token == tok) = none ∧
      ∀ hashF2 now2 npw2,
        (Routes.reset_password hashF2 now2
            (Routes.reset_password hashF now st tok npw).snd tok npw2).fst =
          .error (.http 400 INVALID_OR_EXPIRED_TOKEN)) := by
  refine ⟨?_, ?_, ?_, ?_⟩
  · intro hf
    simp [Routes.reset_password, hf]
  · intro dt hf hexp
    simp [Routes.reset_password, hf, hexp]
  · intro dt hf hexp hu
    simp [Routes.reset_password, hf, hexp, hu]
  · intro dt u hf hexp hu
    have hres : Routes.reset_password hashF now st tok npw =
        (.ok "Password has been reset successfully.",
         { st with
           users := st.users.map (fun v =>
             if v.id == u.id then { v with password := hashF npw } else v),
           resetTokens := st.resetTokens.filter (fun r => r.id != dt.id) }) := by
      simp [Routes.reset_password, hf, hexp, hu]
    have hsnd : (Routes.reset_password hashF now st tok npw).snd =
        { st with
          users := st.users.map (fun v =>
            if v.id == u.id then { v with password := hashF npw } else v),
          resetTokens := st.resetTokens.filter (fun r => r.id != dt.id) } := by
      rw [hres]
    have hgone : (st.resetTokens.filter (fun r => r.id != dt.id)).find?
        (fun r => r.token == tok) = none := by
      rw [List.find?_eq_none]
      intro x hx hxtok
      rw [List.mem_filter] at hx
      obtain ⟨hxmem, hxid⟩ := hx
      have hxtok' : x.token = tok := by simpa using hxtok
      have hdtmem : dt ∈ st.resetTokens := List.mem_of_find?_eq_some hf
      have hdttok : dt.token = tok := by simpa using List.find?_some hf
      have hxdt : x.id = dt.id :=
        hkey x hxmem dt hdtmem (hxtok'.trans hdttok.symm)
      simp [hxdt] at hxid
    have hlook : Repo.get_user_by_email
        ({ st with
           users := st.users.map (fun v =>
             if v.id == u.id then { v with password := hashF npw } else v),
           resetTokens := st.resetTokens.filter (fun r => r.id != dt.id) } : Store)
        dt.email = some { u with password := hashF npw } := by
      have hfp : ∀ v : User,
          ((fun v : User =>
            if v.id == u.id then { v with password := hashF npw } else v) v).email
            = v.email := by
        intro v
        by_cases h : v.id == u.id <;> simp [h]
      unfold Repo.get_user_by_email at hu ⊢
      simp only
      rw [users_find?_email_map _ hfp st.users dt.email, hu]
      simp
    refine ⟨by rw [hres], ?_, ?_, ?_⟩
    · rw [hsnd]
      exact hlook
    · rw [hsnd]
      exact hgone
    · intro hashF2 now2 npw2
      rw [hsnd]
      simp [Routes.reset_password, hgone]

/-- Witness for C4: the reset flow on the concrete store `c2st` at tick 50
(the token row expires at 100): success, rewritten password hash, token
row consumed, and a second completion failing 400. -/
theorem C4_reset_password_single_use_witness :
    (Routes.reset_password cHash 50 c2st "tk" "np").fst =
      .ok "Password has been reset successfully." ∧
    Repo.get_user_by_email (Routes.reset_password cHash 50 c2st "tk" "np").snd
        "a@x.com" = some { c2user with password := cHash "np" } ∧
    (Routes.reset_password cHash 50 c2st "tk" "np").snd.resetTokens.find?
        (fun r => r.token == "tk") = none ∧
    (Routes.reset_password cHash 60
        (Routes.reset_password cHash 50 c2st "tk" "np").snd "tk" "np2").fst =
      .error (.http 400 INVALID_OR_EXPIRED_TOKEN) := by
  have h := (C4_reset_password_single_use cHash 50 c2st "tk" "np"
      (by decide)).2.2.2 c2row c2user rfl (by decide) rfl
  exact ⟨h.1, h.2.1, h.2.2.1, h.2.2.2 cHash 60 "np2"⟩

/-- Counterexample to C2: in the store `c2st` the reset-token row "tk"
has `expiration = 100`; presenting it at `now = 100` (expiration equal
to the current time) the claim says the request fails 400
`INVALID_OR_EXPIRED_TOKEN`, but the code checks `expiration < now`
strictly and the request succeeds. -/
theorem C2_boundary_counterexample :
    c2st.resetTokens.find? (fun r => r.token == "tk") =
      some { id := 1, email := "a@x.com", token := "tk", expiration := 100 } ∧
    (Routes.reset_password cHash 100 c2st "tk" "np").fst =
      .ok "Password has been reset successfully." ∧
    (Routes.reset_password cHash 100 c2st "tk" "np").fst ≠
      .error (.http 400 INVALID_OR_EXPIRED_TOKEN) :=
  ⟨rfl, rfl, by decide⟩

/-- C2 amended: a reset-password request presenting a stored token t at
a time `now` with `t.expiration = now` is NOT rejected by the expiry
check — the check is strict (`expiration < now`), so the boundary token
is still treated as valid and the request never fails with
`INVALID_OR_EXPIRED_TOKEN`. -/
theorem C2_amended_boundary_token_still_valid
    (hashF : String → String) (now : Nat) (st : Store) (tok npw : String)
    (dt : PasswordResetToken)
    (hdt : st.resetTokens.find? (fun r => r.token == tok) = some dt)
    (hexp : dt.expiration = now) :
    (Routes.reset_password hashF now st tok npw).fst ≠
      .error (.http 400 INVALID_OR_EXPIRED_TOKEN) := by
  have hlt : ¬ dt.expiration < now := by
    rw [hexp]
    exact Nat.lt_irrefl now
  cases hu : Repo.get_user_by_email st dt.email with
  | none => simp [Routes.reset_password, hdt, hlt, hu]
  | some u => simp [Routes.reset_password, hdt, hlt, hu]

/-- Witness for the amended C2: the boundary token of `c2st` presented
at exactly its expiration tick 100 is not rejected as expired. -/
theorem C2_amended_boundary_token_still_valid_witness :
    c2row.expiration = 100 ∧
    (Routes.reset_password cHash 100 c2st "tk" "np").fst ≠
      .error (.http 400 INVALID_OR_EXPIRED_TOKEN) :=
  ⟨rfl, C2_amended_boundary_token_still_valid cHash 100 c2st "tk" "np" c2row rfl rfl⟩

/-- C5 (code bug): the birthday query window overshoots inside the
current month. With the reference date June 1 2024 (no year-boundary
crossing): June 1 + 3 days = June 4 and `c5c3` (birthday month/day
June 4) is returned, as the claim says; but June 1 + 10 days = June 11,
and `c5c10` (birthday month/day June 11) is ALSO returned even though
the claim (and the 7-day-window docstring of `get_contact_birthday`,
June 1 + 7 days = June 8) says it must be excluded: the first branch of
the filter matches every remaining day of the current month. -/
theorem C5_birthday_window_overshoot_bug :
    addDays ⟨2024, 6, 1⟩ 3 = ⟨2024, 6, 4⟩ ∧
    addDays ⟨2024, 6, 1⟩ 7 = ⟨2024, 6, 8⟩ ∧
    addDays ⟨2024, 6, 1⟩ 10 = ⟨2024, 6, 11⟩ ∧
    c5c3.birthday.month = 6 ∧ c5c3.birthday.day = 4 ∧
    c5c10.birthday.month = 6 ∧ c5c10.birthday.day = 11 ∧
    Repo.get_contact_birthday ⟨2024, 6, 1⟩ c5st c2user = [c5c3, c5c10] :=
  ⟨rfl, rfl, rfl, rfl, rfl, rfl, rfl, rfl⟩

/-- C6 (code bug): `request_email` reads `user.confirmed` before the
`if user:` guard, so a request whose email matches no user raises
`AttributeError` (`None.confirmed`) instead of returning the 200
message; for existing users the two success messages behave as the
claim says. -/
theorem C6_request_email_none_dereference_bug :
    Routes.request_email c6st "ghost@x.com" = (.error .noneAttr, c6st) ∧
    Routes.request_email c6st "a@x.com" =
      (.ok "Your email is already confirmed", c6st) ∧
    Routes.request_email c6st "b@x.com" =
      (.ok "Check your email for confirmation.", c6st) :=
  ⟨rfl, rfl, rfl⟩

/-- C7: against a store with no user for the email, signup succeeds and
creates an unconfirmed user whose stored password is the hash of the
payload password (never the plaintext), and every subsequent signup with
the same email fails 409 `Conflict`, leaving the store unchanged. -/
theorem C7_signup_first_succeeds_then_conflict
    (hashF : String → String) (nid : Nat) (av : Option String)
    (st : Store) (body : UserSchema)
    (hfresh : Repo.get_user_by_email st body.email = none)
    (hhash : hashF body.password ≠ body.password) :
    (Routes.signup hashF nid av st body).fst =
      .ok { id := nid, username := body.username, email := body.email,
            password := hashF body.password, avatar := av,
            refresh_token := none, role := Role.user, confirmed := false } ∧
    (∀ u, (Routes.signup hashF nid av st body).fst = .ok u →
      u.confirmed = false ∧ u.password = hashF body.password ∧
      u.password ≠ body.password) ∧
    (∀ hashF2 nid2 av2 body2, body2.email = body.email →
      Routes.signup hashF2 nid2 av2 (Routes.signup hashF nid av st body).snd
          body2 =
        (.error (.http 409 ACCOUNT_EXIST),
         (Routes.signup hashF nid av st body).snd)) := by
  have h1 : Routes.signup hashF nid av st body =
      (.ok { id := nid, username := body.username, email := body.email,
             password := hashF body.password, avatar := av,
             refresh_token := none, role := Role.user, confirmed := false },
       { st with users := st.users ++
           [{ id := nid, username := body.username, email := body.email,
              password := hashF body.password, avatar := av,
              refresh_token := none, role := Role.user,
              confirmed := false }] }) := by
    simp [Routes.signup, Repo.create_user, hfresh]
  refine ⟨by rw [h1], ?_, ?_⟩
  · intro u hu
    rw [h1] at hu
    injection hu with hu
    subst hu
    exact ⟨rfl, rfl, hhash⟩
  · intro hashF2 nid2 av2 body2 he
    have hsnd : (Routes.signup hashF nid av st body).snd =
        { st with users := st.users ++
            [{ id := nid, username := body.username, email := body.email,
               password := hashF body.password, avatar := av,
               refresh_token := none, role := Role.user,
               confirmed := false }] } := by
      rw [h1]
    have hlookup : Repo.get_user_by_email
        ({ st with users := st.users ++
            [{ id := nid, username := body.username, email := body.email,
               password := hashF body.password, avatar := av,
               refresh_token := none, role := Role.user,
               confirmed := false }] } : Store) body2.email =
        some { id := nid, username := body.username, email := body.email,
               password := hashF body.password, avatar := av,
               refresh_token := none, role := Role.user,
               confirmed := false } := by
      unfold Repo.get_user_by_email at hfresh ⊢
      simp only
      rw [he, List.find?_append, hfresh]
      simp
    rw [hsnd]
    simp [Routes.signup, hlookup]

/-- Witness for C7: signing "a@x.com" up against the empty store and
then signing the same email up again. -/
theorem C7_signup_first_succeeds_then_conflict_witness :
    (Routes.signup cHash 1 none emptyStore c7body).fst =
      .ok { id := 1, username := "u", email := "a@x.com",
            password := cHash "pw", avatar := none, refresh_token := none,
            role := Role.user, confirmed := false } ∧
    Routes.signup cHash 2 none (Routes.signup cHash 1 none emptyStore c7body).snd
        c7body =
      (.error (.http 409 ACCOUNT_EXIST),
       (Routes.signup cHash 1 none emptyStore c7body).snd) := by
  have h := C7_signup_first_succeeds_then_conflict cHash 1 none emptyStore c7body
    rfl (by decide)
  exact ⟨h.1, h.2.2 cHash 2 none c7body rfl⟩

/-- C9: confirming an already-confirmed user is an idempotent no-op with
the distinct already-confirmed message and no state mutation. -/
theorem C9_confirm_already_confirmed_noop
    (dec : String → Option String) (st : Store) (tok e : String) (u : User)
    (hdec : dec tok = some e)
    (hfind : Repo.get_user_by_email st e = some u)
    (hconf : u.confirmed = true) :
    Routes.confirmed_email dec st tok =
      (.ok "Your email is already confirmed", st) ∧
    ("Your email is already confirmed" : String) ≠ "Email confirmed" := by
  constructor
  · simp [Routes.confirmed_email, hdec, hfind, hconf]
  · decide

/-- Witness for C9: re-confirming the already-confirmed user `c1u`
through the token "ct". -/
theorem C9_confirm_already_confirmed_noop_witness :
    Routes.confirmed_email c9dec c1st "ct" =
      (.ok "Your email is already confirmed", c1st) ∧
    ("Your email is already confirmed" : String) ≠ "Email confirmed" :=
  C9_confirm_already_confirmed_noop c9dec c1st "ct" "a@x.com" c1u rfl rfl rfl

/-- Helper: the success path of `reset_password` rewrites the password
of the looked-up user and deletes the token row, and nothing else. -/
theorem reset_password_success_eq
    (hashF : String → String) (now : Nat) (st : Store) (tok npw : String)
    (dt : PasswordResetToken) (u : User)
    (hdt : st.resetTokens.find? (fun r => r.token == tok) = some dt)
    (hexp : ¬ dt.expiration < now)
    (hu : Repo.get_user_by_email st dt.email = some u) :
    Routes.reset_password hashF now st tok npw =
      (.ok "Password has been reset successfully.",
       { st with
         users := st.users.map (fun v =>
           if v.id == u.id then { v with password := hashF npw } else v),
         resetTokens := st.resetTokens.filter (fun r => r.id != dt.id) }) := by
  simp [Routes.reset_password, hdt, hexp, hu]

/-- C10: a successful password reset changes only the password column of
the affected user — id, username, email, avatar, stored refresh token,
role and confirmed flag are unchanged, other users are untouched — and a
refresh token issued before the reset is still accepted by a refresh
call afterwards. -/
theorem C10_reset_password_preserves_refresh_token
    (hashF : String → String) (now : Nat) (st : Store) (tok npw : String)
    (dt : PasswordResetToken) (u : User)
    (dec : String → Option String) (na nr rt : String)
    (hdt : st.resetTokens.find? (fun r => r.token == tok) = some dt)
    (hexp : ¬ dt.expiration < now)
    (hu : Repo.get_user_by_email st dt.email = some u)
    (hrt : u.refresh_token = some rt)
    (hdec : dec rt = some dt.email) :
    Repo.get_user_by_email (Routes.reset_password hashF now st tok npw).snd
        dt.email = some { u with password := hashF npw } ∧
    ({ u with password := hashF npw } : User).refresh_token = u.refresh_token ∧
    ({ u with password := hashF npw } : User).id = u.id ∧
    ({ u with password := hashF npw } : User).username = u.username ∧
    ({ u with password := hashF npw } : User).email = u.email ∧
    ({ u with password := hashF npw } : User).avatar = u.avatar ∧
    ({ u with password := hashF npw } : User).role = u.role ∧
    ({ u with password := hashF npw } : User).confirmed = u.confirmed ∧
    (∀ v ∈ st.users, v.id ≠ u.id →
      v ∈ (Routes.reset_password hashF now st tok npw).snd.users) ∧
    (Routes.refresh_token dec na nr
        (Routes.reset_password hashF now st tok npw).snd rt).fst =
      .ok { access_token := na, refresh_token := nr, token_type := "bearer" } := by
  have hres := reset_password_success_eq hashF now st tok npw dt u hdt hexp hu
  have hsnd : (Routes.reset_password hashF now st tok npw).snd =
      { st with
        users := st.users.map (fun v =>
          if v.id == u.id then { v with password := hashF npw } else v),
        resetTokens := st.resetTokens.filter (fun r => r.id != dt.id) } := by
    rw [hres]
  have hfp : ∀ v : User,
      ((fun v : User =>
        if v.id == u.id then { v with password := hashF npw } else v) v).email
        = v.email := by
    intro v
    by_cases h : v.id == u.id <;> simp [h]
  have hlook : Repo.get_user_by_email
      ({ st with
         users := st.users.map (fun v =>
           if v.id == u.id then { v with password := hashF npw } else v),
         resetTokens := st.resetTokens.filter (fun r => r.id != dt.id) } : Store)
      dt.email = some { u with password := hashF npw } := by
    unfold Repo.get_user_by_email at hu ⊢
    simp only
    rw [users_find?_email_map _ hfp st.users dt.email, hu]
    simp
  refine ⟨by rw [hsnd]; exact hlook, rfl, rfl, rfl, rfl, rfl, rfl, rfl, ?_, ?_⟩
  · intro v hv hne
    rw [hsnd]
    exact List.mem_map.mpr ⟨v, hv, by simp [hne]⟩
  · rw [hsnd]
    simp only [Routes.refresh_token, hdec]
    rw [hlook]
    simp [hrt]

/-- Witness for C10: resetting the password of `c10u` (stored refresh
token "rt") at tick 50 leaves the refresh token stored and a subsequent
refresh call presenting "rt" succeeds. -/
theorem C10_reset_password_preserves_refresh_token_witness :
    Repo.get_user_by_email (Routes.reset_password cHash 50 c10st "tk" "np").snd
        "a@x.com" = some { c10u with password := cHash "np" } ∧
    ({ c10u with password := cHash "np" } : User).refresh_token =
      c10u.refresh_token ∧
    (Routes.refresh_token c10dec "na" "nr"
        (Routes.reset_password cHash 50 c10st "tk" "np").snd "rt").fst =
      .ok { access_token := "na", refresh_token := "nr",
            token_type := "bearer" } := by
  have h := C10_reset_password_preserves_refresh_token cHash 50 c10st "tk" "np"
    c2row c10u c10dec "na" "nr" "rt" rfl (by decide) rfl rfl rfl
  exact ⟨h.1, h.2.1, h.2.2.2.2.2.2.2.2.2⟩

/-- C8: every contact operation is owner-scoped. Reads (paginated list,
get-by-id, first/last-name and email search, birthday filter) only
return contacts whose `user_id` is the caller, create attaches the
caller as owner, and update/delete only touch the caller-owned row —
every contact of another owner is still present, unchanged, afterwards.
`hids` is the primary-key uniqueness of the contacts table. -/
theorem C8_contact_operations_owner_scoped
    (st : Store) (u : User) (off lim cid nid : Nat)
    (nme lname em : String) (body : ContactSchema) (today : PyDate)
    (hids : (st.contacts.map (fun c => c.id)).Nodup) :
    (∀ c ∈ Repo.get_contacts off lim st u, c.user_id = u.id) ∧
    (∀ c, Repo.get_contact_id cid st u = some c → c.user_id = u.id) ∧
    (∀ c ∈ Repo.get_contact_first_name nme st u, c.user_id = u.id) ∧
    (∀ c ∈ Repo.get_contact_last_name lname st u, c.user_id = u.id) ∧
    (∀ c, Repo.get_contact_email em st u = .ok c → c.user_id = u.id) ∧
    (∀ c ∈ Repo.get_contact_birthday today st u, c.user_id = u.id) ∧
    (Repo.create_contact nid body st u).fst.user_id = u.id ∧
    (∀ c, (Repo.update_contact cid body st u).fst = some c →
      c.user_id = u.id) ∧
    (∀ d ∈ st.contacts, d.user_id ≠ u.id →
      d ∈ (Repo.update_contact cid body st u).snd.contacts) ∧
    (∀ c, (Repo.remove_contact cid st u).fst = some c → c.user_id = u.id) ∧
    (∀ d ∈ st.contacts, d.user_id ≠ u.id →
      d ∈ (Repo.remove_contact cid st u).snd.contacts) := by
  refine ⟨?_, ?_, ?_, ?_, ?_, ?_, rfl, ?_, ?_, ?_, ?_⟩
  · intro c hc
    unfold Repo.get_contacts at hc
    have hmem := List.mem_of_mem_drop (List.mem_of_mem_take hc)
    have := (List.mem_filter.mp hmem).2
    simpa using this
  · intro c h
    have := List.find?_some h
    simp only [Bool.and_eq_true, beq_iff_eq] at this
    exact this.2
  · intro c hc
    have := (List.mem_filter.mp hc).2
    simp only [Bool.and_eq_true, beq_iff_eq] at this
    exact this.2
  · intro c hc
    have := (List.mem_filter.mp hc).2
    simp only [Bool.and_eq_true, beq_iff_eq] at this
    exact this.2
  · intro c h
    unfold Repo.get_contact_email at h
    split at h
    · cases h
    · next c0 heq =>
      injection h with h'
      subst h'
      have := List.find?_some heq
      simp only [Bool.and_eq_true, beq_iff_eq] at this
      exact this.2
  · intro c hc
    have := (List.mem_filter.mp hc).2
    simp only [Bool.and_eq_true, beq_iff_eq] at this
    exact this.1
  · intro c h
    unfold Repo.update_contact at h
    split at h
    · cases h
    · next c0 heq =>
      injection h with h'
      subst h'
      have := List.find?_some heq
      simp only [Bool.and_eq_true, beq_iff_eq] at this
      exact this.2
  · intro d hd hne
    cases hf : st.contacts.find? (fun c => c.id == cid && c.user_id == u.id) with
    | none =>
      simp only [Repo.update_contact, hf]
      exact hd
    | some c0 =>
      simp only [Repo.update_contact, hf]
      exact List.mem_map.mpr ⟨d, hd, by simp [hne]⟩
  · intro c h
    unfold Repo.remove_contact at h
    split at h
    · cases h
    · next c0 heq =>
      injection h with h'
      subst h'
      have := List.find?_some heq
      simp only [Bool.and_eq_true, beq_iff_eq] at this
      exact this.2
  · intro d hd hne
    cases hf : st.contacts.find? (fun c => c.id == cid && c.user_id == u.id) with
    | none =>
      simp only [Repo.remove_contact, hf]
      exact hd
    | some c0 =>
      have hc0mem : c0 ∈ st.contacts := List.mem_of_find?_eq_some hf
      have hc0 := List.find?_some hf
      simp only [Bool.and_eq_true, beq_iff_eq] at hc0
      simp only [Repo.remove_contact, hf]
      rw [List.mem_filter]
      refine ⟨hd, ?_⟩
      simp only [bne_iff_ne, ne_eq]
      intro heq
      have hdc0 : d = c0 := List.inj_on_of_nodup_map hids hd hc0mem heq
      rw [hdc0] at hne
      exact hne hc0.2

/-- Witness for C8: the owner-scoped operations on the two-owner store
`c8st`, queried as user 1 — the listing returns only the contact of
user 1, and deleting the contact of user 1 leaves the contact of
user 2 present. -/
theorem C8_contact_operations_owner_scoped_witness :
    (∀ c ∈ Repo.get_contacts 0 10 c8st c6a, c.user_id = c6a.id) ∧
    (∀ d ∈ c8st.contacts, d.user_id ≠ c6a.id →
      d ∈ (Repo.remove_contact 1 c8st c6a).snd.contacts) ∧
    Repo.get_contacts 0 10 c8st c6a = [c8c1] ∧
    (Repo.remove_contact 1 c8st c6a).snd.contacts = [c8c2] := by
  have h := C8_contact_operations_owner_scoped c8st c6a 0 10 1 3 "Mine" "Own"
    "m@x.com" c8body ⟨2024, 6, 1⟩ (by decide)
  exact ⟨h.1, h.2.2.2.2.2.2.2.2.2.2, rfl, rfl⟩

end ContactsSpec
